import Mathlib

/-!
Shallow embedding of the financial-projection transform in `src/app.py`.

The pandas `DataFrame` is modelled as a `List (List ℚ)` of rows of numeric
cells; Python numbers are modelled as exact rationals; Python exceptions are
modelled with `Except String`.  All definitions follow the source code of
`src/app.py` line by line.
-/

set_option maxHeartbeats 1000000

namespace FinProj

/-- The five base financial categories sliced out of the spreadsheet by
`identify_key_sections` in `src/app.py`. -/
inductive Category where
  | productSales
  | serviceSales
  | costOfGoodsSold
  | marketing
  | staffSalaries
deriving DecidableEq, Fintype

/-- The categories in Python dict insertion order (the order
`identify_key_sections` inserts them). -/
def categoryList : List Category :=
  [.productSales, .serviceSales, .costOfGoodsSold, .marketing, .staffSalaries]

/-- The display name of each category, as used for dict keys and row labels in
`src/app.py`. -/
def catName : Category → String
  | .productSales => "Product Sales"
  | .serviceSales => "Service Sales"
  | .costOfGoodsSold => "Cost of Goods Sold"
  | .marketing => "Marketing"
  | .staffSalaries => "Staff Salaries"

/-- The message of a Python `ZeroDivisionError`. -/
def zeroDivMsg : String := "ZeroDivisionError: division by zero"

/-- The message pandas raises for an out-of-bounds scalar `iloc` indexer. -/
def indexErrMsg : String := "IndexError: single positional indexer is out-of-bounds"

/-- The message of the `IndexError` raised by `values[0]` on an empty array. -/
def emptyRowMsg : String := "IndexError: index 0 is out of bounds"

/-- The message of a Python `KeyError` on the growth-rate dict. -/
def keyErrMsg : String := "KeyError: missing growth rate"

/-- The message pandas raises when assigning a column-label list whose length
differs from the number of columns. -/
def valueErrMsg : String := "ValueError: Length mismatch"

/-- The hard-coded spreadsheet row index of each category
(`df.iloc[2, 1:14]`, `df.iloc[3, 1:14]`, `df.iloc[6, 1:14]`,
`df.iloc[7, 1:14]`, `df.iloc[8, 1:14]` in `identify_key_sections`). -/
def rowIdx : Category → ℕ
  | .productSales => 2
  | .serviceSales => 3
  | .costOfGoodsSold => 6
  | .marketing => 7
  | .staffSalaries => 8

/-- Round half to even at the integers (Python's `round` tie rule), in exact
rational arithmetic. -/
def roundHalfEven (q : ℚ) : ℤ :=
  if q - ⌊q⌋ < 1 / 2 then ⌊q⌋
  else if 1 / 2 < q - ⌊q⌋ then ⌊q⌋ + 1
  else if (⌊q⌋ : ℤ) % 2 = 0 then ⌊q⌋ else ⌊q⌋ + 1

/-- Python's `round(x, 2)` on exact rationals. -/
def pyround2 (x : ℚ) : ℚ := (roundHalfEven (x * 100) : ℚ) / 100

/-- Model of pandas `df.iloc[r, 1:14].values`: the scalar row indexer raises an
`IndexError` when `r` is out of bounds, while the column slice `1:14` behaves
like a Python slice and silently truncates (pandas permits out-of-bounds
slice indexers). -/
def ilocRow (df : List (List ℚ)) (r : ℕ) : Except String (List ℚ) :=
  match df[r]? with
  | none => Except.error indexErrMsg
  | some row => Except.ok ((row.drop 1).take 13)

/-- `identify_key_sections` in `src/app.py`: slice rows 2, 3, 6, 7, 8 at
columns `1:14` into the five named sections, in dict insertion order. -/
def identify_key_sections (df : List (List ℚ)) :
    Except String (Category → List ℚ) := do
  let ps ← ilocRow df 2
  let ss ← ilocRow df 3
  let cogs ← ilocRow df 6
  let mkt ← ilocRow df 7
  let st ← ilocRow df 8
  Except.ok fun c =>
    match c with
    | .productSales => ps
    | .serviceSales => ss
    | .costOfGoodsSold => cogs
    | .marketing => mkt
    | .staffSalaries => st

/-- The body of the comprehension in `calculate_growth_rates`:
`[round((values[i] - values[i-1]) / values[i-1], 2) for i in range(1, len(values))]`,
written as a recursion over consecutive pairs.  Python raises
`ZeroDivisionError` when a divisor `values[i-1]` is zero. -/
def growthRatesOfRow : List ℚ → Except String (List ℚ)
  | [] => Except.ok []
  | [_] => Except.ok []
  | v0 :: v1 :: rest =>
    if v0 = 0 then Except.error zeroDivMsg
    else
      match growthRatesOfRow (v1 :: rest) with
      | Except.error e => Except.error e
      | Except.ok rs => Except.ok (pyround2 ((v1 - v0) / v0) :: rs)

/-- `calculate_growth_rates` in `src/app.py`, applied to the five sections in
dict order (the first failing row determines the raised error). -/
def calculate_growth_rates (s : Category → List ℚ) :
    Except String (Category → List ℚ) := do
  let g1 ← growthRatesOfRow (s .productSales)
  let g2 ← growthRatesOfRow (s .serviceSales)
  let g3 ← growthRatesOfRow (s .costOfGoodsSold)
  let g4 ← growthRatesOfRow (s .marketing)
  let g5 ← growthRatesOfRow (s .staffSalaries)
  Except.ok fun c =>
    match c with
    | .productSales => g1
    | .serviceSales => g2
    | .costOfGoodsSold => g3
    | .marketing => g4
    | .staffSalaries => g5

/-- The `Assumptions` handoff object built by `main_flow`: the static category
names, the average growth rate of each non-static category (a partial map,
modelled as `Option`-valued), and every category's initial value. -/
structure Assumptions where
  static_keys : List Category
  avg_growth_rates : Category → Option ℚ
  initial_values : Category → ℚ

/-- `main_flow` in `src/app.py`: extract sections, compute growth rates,
classify static categories (`0.0 in values`), average the non-static series
(`round(sum(values) / len(values), 2)` — a `ZeroDivisionError` when a
non-static series is empty), and record initial values (`values[0]` — an
`IndexError` on an empty section row). -/
def main_flow (df : List (List ℚ)) : Except String Assumptions := do
  let sections ← identify_key_sections df
  let growth_rates ← calculate_growth_rates sections
  let static_keys := categoryList.filter fun c => decide ((0 : ℚ) ∈ growth_rates c)
  if categoryList.any (fun c => !decide (c ∈ static_keys) && decide (growth_rates c = [])) then
    Except.error zeroDivMsg
  else if categoryList.any (fun c => decide (sections c = [])) then
    Except.error emptyRowMsg
  else
    Except.ok
      { static_keys := static_keys
        avg_growth_rates := fun c =>
          if c ∈ static_keys then none
          else some (pyround2 ((growth_rates c).sum / ((growth_rates c).length : ℚ)))
        initial_values := fun c => (sections c).headD 0 }

/-- Step 1 of `build_new_df`: the in-place overwrite
`avg_growth_rates["Product Sales"] = product_sales_rate / 100` and
`avg_growth_rates["Service Sales"] = service_sales_rate / 100`. -/
def overrideRates (a : Assumptions) (productRate serviceRate : ℚ) : Assumptions :=
  { a with
    avg_growth_rates := fun c =>
      if c = .productSales then some (productRate / 100)
      else if c = .serviceSales then some (serviceRate / 100)
      else a.avg_growth_rates c }

/-- The non-static branch of `build_new_df`:
`[round(initial_value * (1 + avg_growth_rates[key]) ** period, 2) for period in range(periods + 1)]`.
The dict lookup happens inside the comprehension body, so an absent key raises
`KeyError` only when the range is non-empty. -/
def compoundRow (initial : ℚ) (rate : Option ℚ) : List ℕ → Except String (List ℚ)
  | [] => Except.ok []
  | p :: ps =>
    match rate with
    | none => Except.error keyErrMsg
    | some r =>
      match compoundRow initial rate ps with
      | Except.error e => Except.error e
      | Except.ok rest => Except.ok (pyround2 (initial * (1 + r) ^ p) :: rest)

/-- One projected base row of `build_new_df`: the static branch repeats the
initial value `periods + 1` times (Python `[x] * n` is empty for `n <= 0`),
the growing branch compounds from the initial value over
`range(periods + 1)`. -/
def projRow (a : Assumptions) (c : Category) (periods : ℤ) : Except String (List ℚ) :=
  if c ∈ a.static_keys then
    Except.ok (List.replicate (periods + 1).toNat (a.initial_values c))
  else
    compoundRow (a.initial_values c) (a.avg_growth_rates c) (List.range (periods + 1).toNat)

/-- The projection table produced by `build_new_df`: the column labels
`["Initial", "Month 1", ..., "Month N"]` and the eight labelled rows in the
fixed `reindex` presentation order. -/
structure ProjTable where
  col_labels : List String
  rows : List (String × List ℚ)
deriving DecidableEq

/-- The column labels assigned by `build_new_df`:
`["Initial"] + [f"Month {i}" for i in range(1, periods + 1)]`. -/
def monthLabels (periods : ℤ) : List String :=
  "Initial" :: (List.range' 1 periods.toNat).map (fun i => "Month " ++ toString i)

/-- Steps 2–4 of `build_new_df`, after the rate overwrite: project the five
base rows, assign the column labels (pandas raises a `ValueError` when the
label count differs from the data column count, which happens exactly when
`periods < 0`), compute the three derived rows column-wise, and lay the rows
out in the fixed presentation order. -/
def buildTable (a : Assumptions) (periods : ℤ) : Except String ProjTable := do
  let ps ← projRow a .productSales periods
  let ss ← projRow a .serviceSales periods
  let cogs ← projRow a .costOfGoodsSold periods
  let mkt ← projRow a .marketing periods
  let st ← projRow a .staffSalaries periods
  if (periods + 1).toNat ≠ 1 + periods.toNat then
    Except.error valueErrMsg
  else
    let totalSales := List.zipWith (· + ·) ps ss
    let totalOpEx := List.zipWith (· + ·) (List.zipWith (· + ·) cogs mkt) st
    let netIncome := List.zipWith (· - ·) totalSales totalOpEx
    Except.ok
      { col_labels := monthLabels periods
        rows := [("Product Sales", ps), ("Service Sales", ss),
                 ("Total Sales", totalSales), ("Cost of Goods Sold", cogs),
                 ("Marketing", mkt), ("Staff Salaries", st),
                 ("Total Operating Expenses", totalOpEx), ("Net Income", netIncome)] }

/-- `build_new_df` in `src/app.py`: mutate the shared assumptions (step 1),
then build the table from the mutated assumptions.  The mutated assumptions
object is returned alongside the result to make the side effect explicit. -/
def build_new_df (a : Assumptions) (periods : ℤ)
    (product_sales_rate service_sales_rate : ℚ) :
    Assumptions × Except String ProjTable :=
  let a' := overrideRates a product_sales_rate service_sales_rate
  (a', buildTable a' periods)

/-- Look a labelled row up in the presentation table. -/
def lookupRow (rows : List (String × List ℚ)) (name : String) : List ℚ :=
  match rows with
  | [] => []
  | (n, v) :: rest => if n = name then v else lookupRow rest name

/-- The series of the row labelled `name` in a projection table. -/
def getRow (t : ProjTable) (name : String) : List ℚ := lookupRow t.rows name

/-- The growth rate in effect for a category after the slider overwrite of
step 1 of `build_new_df`. -/
def effRate (a : Assumptions) (productRate serviceRate : ℚ) (c : Category) : ℚ :=
  ((overrideRates a productRate serviceRate).avg_growth_rates c).getD 0

/-- The sections extracted from a table, defaulting to empty rows when the
slicing step fails. -/
def sectionsOf (df : List (List ℚ)) : Category → List ℚ :=
  ((identify_key_sections df).toOption).getD fun _ => []

/-- The growth-rate series computed from a table, defaulting to empty series
when extraction fails. -/
def growthOf (df : List (List ℚ)) : Category → List ℚ :=
  ((calculate_growth_rates (sectionsOf df)).toOption).getD fun _ => []

/-- The assumptions extracted from a table, defaulting to an empty snapshot
when `main_flow` fails. -/
def assumptionsOf (df : List (List ℚ)) : Assumptions :=
  ((main_flow df).toOption).getD
    { static_keys := [], avg_growth_rates := fun _ => none, initial_values := fun _ => 0 }

/-- A geometric historical row used by concrete test tables: thirteen monthly
values doubling from `start`, so every period-over-period growth rate is 1. -/
def doubling (start : ℚ) : List ℚ := (List.range 13).map fun k => start * 2 ^ k

/-- A concrete well-shaped 9 × 14 input table: both sales rows, Marketing and
Staff Salaries double every month (non-static), Cost of Goods Sold is constant
(static). -/
def sample_df : List (List ℚ) :=
  [List.replicate 14 1, List.replicate 14 1,
   0 :: doubling 1, 0 :: doubling 3,
   List.replicate 14 1, List.replicate 14 1,
   0 :: List.replicate 13 5, 0 :: doubling 1, 0 :: doubling 2]

/-- A concrete well-shaped 9 × 14 table whose Product Sales row is constant,
so Product Sales is classified static. -/
def df_psStatic : List (List ℚ) :=
  [List.replicate 14 1, List.replicate 14 1,
   0 :: List.replicate 13 7, 0 :: doubling 3,
   List.replicate 14 1, List.replicate 14 1,
   0 :: List.replicate 13 5, 0 :: doubling 1, 0 :: doubling 2]

/-- A concrete well-shaped 9 × 14 table whose Product Sales row holds a zero
historical value in divisor position (index 1 of the sliced row). -/
def df_zero : List (List ℚ) :=
  [List.replicate 14 1, List.replicate 14 1,
   0 :: (1 :: 0 :: List.replicate 11 1), 0 :: doubling 3,
   List.replicate 14 1, List.replicate 14 1,
   0 :: List.replicate 13 5, 0 :: doubling 1, 0 :: doubling 2]

/-- A concrete table with 9 rows but only 2 columns. -/
def df_9x2 : List (List ℚ) := List.replicate 9 [0, 1]

/-- A concrete assumptions snapshot with Cost of Goods Sold static and every
other category growing at rate 1/10. -/
def sampleA : Assumptions :=
  { static_keys := [.costOfGoodsSold]
    avg_growth_rates := fun c => if c = .costOfGoodsSold then none else some (1 / 10)
    initial_values := fun _ => 100 }

/-- A concrete snapshot in which the static Cost of Goods Sold and the
non-static Marketing share the initial value 801/8 = 100.125, which has more
than two decimal places. -/
def sampleB : Assumptions :=
  { static_keys := [.costOfGoodsSold]
    avg_growth_rates := fun c => if c = .costOfGoodsSold then none else some (1 / 10)
    initial_values := fun c =>
      if c = .costOfGoodsSold ∨ c = .marketing then 801 / 8 else 100 }

/-- The projection table built from `sampleA` with `periods = 3` and override
rates 4 and 5, defaulting to the empty table if the build fails. -/
def sampleTableA : ProjTable :=
  ((build_new_df sampleA 3 4 5).2).toOption.getD { col_labels := [], rows := [] }

/-! ### Basic lemmas about the `Except` monad and the row helpers -/

theorem exBind_ok {α β : Type} (a : α) (f : α → Except String β) :
    (Except.ok a >>= f) = f a := rfl

theorem exBind_error {α β : Type} (e : String) (f : α → Except String β) :
    ((Except.error e : Except String α) >>= f) = (Except.error e : Except String β) := rfl

theorem mem_categoryList (c : Category) : c ∈ categoryList := by
  cases c <;> simp [categoryList]

theorem compoundRow_some (initial r : ℚ) :
    ∀ l : List ℕ, compoundRow initial (some r) l =
      Except.ok (l.map fun p => pyround2 (initial * (1 + r) ^ p))
  | [] => rfl
  | p :: ps => by
    simp [compoundRow, compoundRow_some initial r ps]

theorem compoundRow_none_ok (initial : ℚ) (l : List ℕ) (l' : List ℚ)
    (h : compoundRow initial none l = Except.ok l') : l = [] ∧ l' = [] := by
  cases l with
  | nil =>
    simp [compoundRow] at h
    exact ⟨rfl, h⟩
  | cons p ps => simp [compoundRow] at h

theorem projRow_static (a : Assumptions) (c : Category) (periods : ℤ)
    (h : c ∈ a.static_keys) :
    projRow a c periods =
      Except.ok (List.replicate (periods + 1).toNat (a.initial_values c)) := by
  simp [projRow, h]

theorem projRow_growing (a : Assumptions) (c : Category) (periods : ℤ)
    (h : c ∉ a.static_keys) (r : ℚ) (hr : a.avg_growth_rates c = some r) :
    projRow a c periods = Except.ok ((List.range (periods + 1).toNat).map fun p =>
      pyround2 (a.initial_values c * (1 + r) ^ p)) := by
  simp [projRow, h, hr, compoundRow_some]

theorem projRow_length (a : Assumptions) (c : Category) (periods : ℤ) (l : List ℚ)
    (h : projRow a c periods = Except.ok l) : l.length = (periods + 1).toNat := by
  unfold projRow at h
  by_cases hc : c ∈ a.static_keys
  · rw [if_pos hc] at h
    injection h with h
    simp [← h]
  · rw [if_neg hc] at h
    cases hr : a.avg_growth_rates c with
    | none =>
      rw [hr] at h
      obtain ⟨h1, h2⟩ := compoundRow_none_ok _ _ _ h
      have h0 : (periods + 1).toNat = 0 := by simpa using congrArg List.length h1
      simp [h2, h0]
    | some r =>
      rw [hr, compoundRow_some] at h
      injection h with h
      simp [← h]

/-! ### Lemmas about `buildTable` and the presentation table -/

theorem buildTable_ok (a : Assumptions) (periods : ℤ) (hp : 0 ≤ periods)
    (v1 v2 v3 v4 v5 : List ℚ)
    (h1 : projRow a .productSales periods = Except.ok v1)
    (h2 : projRow a .serviceSales periods = Except.ok v2)
    (h3 : projRow a .costOfGoodsSold periods = Except.ok v3)
    (h4 : projRow a .marketing periods = Except.ok v4)
    (h5 : projRow a .staffSalaries periods = Except.ok v5) :
    buildTable a periods = Except.ok
      { col_labels := monthLabels periods
        rows := [("Product Sales", v1), ("Service Sales", v2),
                 ("Total Sales", List.zipWith (· + ·) v1 v2),
                 ("Cost of Goods Sold", v3), ("Marketing", v4), ("Staff Salaries", v5),
                 ("Total Operating Expenses",
                   List.zipWith (· + ·) (List.zipWith (· + ·) v3 v4) v5),
                 ("Net Income",
                   List.zipWith (· - ·) (List.zipWith (· + ·) v1 v2)
                     (List.zipWith (· + ·) (List.zipWith (· + ·) v3 v4) v5))] } := by
  have hq : (periods + 1).toNat = 1 + periods.toNat := by omega
  simp [buildTable, h1, h2, h3, h4, h5, exBind_ok, hq]

theorem buildTable_inv (a : Assumptions) (periods : ℤ) (t : ProjTable)
    (h : buildTable a periods = Except.ok t) :
    ∃ v1 v2 v3 v4 v5,
      projRow a .productSales periods = Except.ok v1 ∧
      projRow a .serviceSales periods = Except.ok v2 ∧
      projRow a .costOfGoodsSold periods = Except.ok v3 ∧
      projRow a .marketing periods = Except.ok v4 ∧
      projRow a .staffSalaries periods = Except.ok v5 ∧
      t.rows = [("Product Sales", v1), ("Service Sales", v2),
                ("Total Sales", List.zipWith (· + ·) v1 v2),
                ("Cost of Goods Sold", v3), ("Marketing", v4), ("Staff Salaries", v5),
                ("Total Operating Expenses",
                  List.zipWith (· + ·) (List.zipWith (· + ·) v3 v4) v5),
                ("Net Income",
                  List.zipWith (· - ·) (List.zipWith (· + ·) v1 v2)
                    (List.zipWith (· + ·) (List.zipWith (· + ·) v3 v4) v5))] := by
  unfold buildTable at h
  cases e1 : projRow a .productSales periods with
  | error e => rw [e1] at h; simp [exBind_error] at h
  | ok v1 =>
  rw [e1] at h
  cases e2 : projRow a .serviceSales periods with
  | error e => rw [e2] at h; simp [exBind_error, exBind_ok] at h
  | ok v2 =>
  rw [e2] at h
  cases e3 : projRow a .costOfGoodsSold periods with
  | error e => rw [e3] at h; simp [exBind_error, exBind_ok] at h
  | ok v3 =>
  rw [e3] at h
  cases e4 : projRow a .marketing periods with
  | error e => rw [e4] at h; simp [exBind_error, exBind_ok] at h
  | ok v4 =>
  rw [e4] at h
  cases e5 : projRow a .staffSalaries periods with
  | error e => rw [e5] at h; simp [exBind_error, exBind_ok] at h
  | ok v5 =>
  rw [e5] at h
  simp only [exBind_ok] at h
  split at h
  · simp at h
  · refine ⟨v1, v2, v3, v4, v5, rfl, rfl, rfl, rfl, rfl, ?_⟩
    injection h with h
    rw [← h]

theorem zipWith_getD (f : ℚ → ℚ → ℚ) (h0 : f 0 0 = 0) :
    ∀ (xs ys : List ℚ), xs.length = ys.length →
      ∀ i : ℕ, (List.zipWith f xs ys).getD i 0 = f (xs.getD i 0) (ys.getD i 0)
  | [], [], _, i => by simp [h0]
  | x :: xs, y :: ys, h, 0 => by simp
  | x :: xs, y :: ys, h, (i + 1) => by
    simp only [List.zipWith_cons_cons, List.getD_cons_succ]
    exact zipWith_getD f h0 xs ys (by simpa using h) i

/-! ### Lemmas about the rate overwrite of step 1 of `build_new_df` -/

theorem overrideRates_static (a : Assumptions) (pr sr : ℚ) :
    (overrideRates a pr sr).static_keys = a.static_keys := rfl

theorem overrideRates_initial (a : Assumptions) (pr sr : ℚ) :
    (overrideRates a pr sr).initial_values = a.initial_values := rfl

theorem overrideRates_idem (a : Assumptions) (pr sr : ℚ) :
    overrideRates (overrideRates a pr sr) pr sr = overrideRates a pr sr := by
  unfold overrideRates
  congr 1
  funext c
  by_cases h1 : c = Category.productSales <;> by_cases h2 : c = Category.serviceSales <;>
    simp [h1, h2]

theorem overrideRates_isSome (a : Assumptions) (pr sr : ℚ) (c : Category)
    (h : c ∉ a.static_keys → (a.avg_growth_rates c).isSome) (hc : c ∉ a.static_keys) :
    ((overrideRates a pr sr).avg_growth_rates c).isSome := by
  by_cases h1 : c = Category.productSales
  · simp [overrideRates, h1]
  · by_cases h2 : c = Category.serviceSales
    · simp [overrideRates, h1, h2]
    · simpa [overrideRates, h1, h2] using h hc

/-- The shared success specification of `build_new_df`: on a well-formed
snapshot and a non-negative period count, the table is built and each base
row is the replicated initial value (static) or the compounded series with
the post-override rate (non-static). -/
theorem build_rows_spec (a : Assumptions) (periods : ℤ) (hp : 0 ≤ periods) (pr sr : ℚ)
    (hwf : ∀ c, c ∉ a.static_keys → (a.avg_growth_rates c).isSome) :
    ∃ t, (build_new_df a periods pr sr).2 = Except.ok t ∧
      (∀ c ∈ a.static_keys,
        getRow t (catName c) = List.replicate (periods + 1).toNat (a.initial_values c)) ∧
      (∀ c, c ∉ a.static_keys →
        getRow t (catName c) = (List.range (periods + 1).toNat).map fun p =>
          pyround2 (a.initial_values c * (1 + effRate a pr sr c) ^ p)) := by
  have hv : ∀ c, projRow (overrideRates a pr sr) c periods = Except.ok
      (if c ∈ a.static_keys then List.replicate (periods + 1).toNat (a.initial_values c)
       else (List.range (periods + 1).toNat).map fun p =>
         pyround2 (a.initial_values c * (1 + effRate a pr sr c) ^ p)) := by
    intro c
    by_cases hc : c ∈ a.static_keys
    · rw [if_pos hc]
      exact projRow_static (overrideRates a pr sr) c periods hc
    · rw [if_neg hc]
      have hs : ((overrideRates a pr sr).avg_growth_rates c).isSome :=
        overrideRates_isSome a pr sr c (hwf c) hc
      obtain ⟨r, hr⟩ := Option.isSome_iff_exists.mp hs
      have hre : effRate a pr sr c = r := by simp [effRate, hr]
      rw [projRow_growing (overrideRates a pr sr) c periods hc r hr, hre]
      rfl
  have hT := buildTable_ok (overrideRates a pr sr) periods hp _ _ _ _ _
    (hv .productSales) (hv .serviceSales) (hv .costOfGoodsSold) (hv .marketing)
    (hv .staffSalaries)
  refine ⟨_, hT, ?_, ?_⟩
  · intro c hc
    cases c <;> simp [getRow, lookupRow, catName, hc]
  · intro c hc
    cases c <;> simp [getRow, lookupRow, catName, hc]

/-! ### Lemmas about `growthRatesOfRow` -/

theorem growthRatesOfRow_length :
    ∀ v g : List ℚ, growthRatesOfRow v = Except.ok g → g.length = v.length - 1
  | [], g, h => by
    simp [growthRatesOfRow] at h
    subst h
    rfl
  | [x], g, h => by
    simp [growthRatesOfRow] at h
    subst h
    rfl
  | x :: y :: rest, g, h => by
    by_cases hx : x = 0
    · simp [growthRatesOfRow, hx] at h
    · rw [growthRatesOfRow, if_neg hx] at h
      cases hrec : growthRatesOfRow (y :: rest) with
      | error e => rw [hrec] at h; simp at h
      | ok gtail =>
        rw [hrec] at h
        injection h with h
        have ih := growthRatesOfRow_length (y :: rest) gtail hrec
        rw [← h]
        simp only [List.length_cons, ih]
        omega

theorem growthRatesOfRow_getD :
    ∀ v g : List ℚ, growthRatesOfRow v = Except.ok g →
      ∀ k : ℕ, k + 1 < v.length →
        g.getD k 0 = pyround2 ((v.getD (k + 1) 0 - v.getD k 0) / v.getD k 0)
  | [], g, _, k, hk => by simp at hk
  | [x], g, _, k, hk => by simp at hk
  | x :: y :: rest, g, h, k, hk => by
    by_cases hx : x = 0
    · simp [growthRatesOfRow, hx] at h
    · rw [growthRatesOfRow, if_neg hx] at h
      cases hrec : growthRatesOfRow (y :: rest) with
      | error e => rw [hrec] at h; simp at h
      | ok gtail =>
        rw [hrec] at h
        injection h with h
        cases k with
        | zero => simp [← h]
        | succ k =>
          have ih := growthRatesOfRow_getD (y :: rest) gtail hrec k (by simpa using hk)
          rw [← h]
          simp only [List.getD_cons_succ] at ih ⊢
          exact ih

theorem growthRatesOfRow_zeroDiv :
    ∀ (v : List ℚ) (i : ℕ), i + 1 < v.length → v.getD i 0 = 0 →
      growthRatesOfRow v = Except.error zeroDivMsg
  | [], i, hi, _ => by simp at hi
  | [x], i, hi, _ => by simp at hi
  | x :: y :: rest, i, hi, h0 => by
    cases i with
    | zero =>
      rw [growthRatesOfRow]
      rw [List.getD_cons_zero] at h0
      simp [h0]
    | succ i =>
      by_cases hx : x = 0
      · simp [growthRatesOfRow, hx]
      · have ih := growthRatesOfRow_zeroDiv (y :: rest) i (by simpa using hi)
          (by simpa using h0)
        simp [growthRatesOfRow, hx, ih]

theorem growthRatesOfRow_cases :
    ∀ v : List ℚ, (∃ g, growthRatesOfRow v = Except.ok g) ∨
      growthRatesOfRow v = Except.error zeroDivMsg
  | [] => Or.inl ⟨[], rfl⟩
  | [x] => Or.inl ⟨[], rfl⟩
  | x :: y :: rest => by
    by_cases hx : x = 0
    · right
      simp [growthRatesOfRow, hx]
    · rcases growthRatesOfRow_cases (y :: rest) with ⟨g, hg⟩ | hg
      · left
        exact ⟨pyround2 ((y - x) / x) :: g, by simp [growthRatesOfRow, hx, hg]⟩
      · right
        simp [growthRatesOfRow, hx, hg]

theorem growthRatesOfRow_isOk :
    ∀ v : List ℚ, (∀ i : ℕ, i + 1 < v.length → v.getD i 0 ≠ 0) →
      ∃ g, growthRatesOfRow v = Except.ok g
  | [], _ => ⟨[], rfl⟩
  | [x], _ => ⟨[], rfl⟩
  | x :: y :: rest, h => by
    have hx : x ≠ 0 := by simpa using h 0 (by simp)
    obtain ⟨g, hg⟩ := growthRatesOfRow_isOk (y :: rest)
      (fun i hi => by simpa using h (i + 1) (by simpa using hi))
    exact ⟨pyround2 ((y - x) / x) :: g, by simp [growthRatesOfRow, hx, hg]⟩

/-! ### Lemmas about `ilocRow` and `identify_key_sections` -/

theorem ilocRow_ok (df : List (List ℚ)) (r : ℕ) (h : r < df.length) :
    ilocRow df r = Except.ok (((df.getD r []).drop 1).take 13) := by
  unfold ilocRow
  rw [List.getElem?_eq_getElem h, List.getD_eq_getElem?_getD, List.getElem?_eq_getElem h]
  rfl

theorem ilocRow_err (df : List (List ℚ)) (r : ℕ) (h : df.length ≤ r) :
    ilocRow df r = Except.error indexErrMsg := by
  unfold ilocRow
  rw [List.getElem?_eq_none h]

theorem ilocRow_cases (df : List (List ℚ)) (r : ℕ) :
    (∃ v, ilocRow df r = Except.ok v) ∨ ilocRow df r = Except.error indexErrMsg := by
  unfold ilocRow
  cases df[r]? with
  | none => exact Or.inr rfl
  | some row => exact Or.inl ⟨_, rfl⟩

theorem identify_ok (df : List (List ℚ)) (h9 : 9 ≤ df.length) :
    identify_key_sections df =
      Except.ok fun c => ((df.getD (rowIdx c) []).drop 1).take 13 := by
  have e1 := ilocRow_ok df 2 (by omega)
  have e2 := ilocRow_ok df 3 (by omega)
  have e3 := ilocRow_ok df 6 (by omega)
  have e4 := ilocRow_ok df 7 (by omega)
  have e5 := ilocRow_ok df 8 (by omega)
  simp only [identify_key_sections, e1, e2, e3, e4, e5, exBind_ok]
  congr 1
  funext c
  cases c <;> rfl

theorem identify_err (df : List (List ℚ)) (h9 : df.length < 9) :
    identify_key_sections df = Except.error indexErrMsg := by
  have e5 : ilocRow df 8 = Except.error indexErrMsg := ilocRow_err df 8 (by omega)
  rcases ilocRow_cases df 2 with ⟨v2, h2⟩ | h2 <;>
    rcases ilocRow_cases df 3 with ⟨v3, h3⟩ | h3 <;>
    rcases ilocRow_cases df 6 with ⟨v6, h6⟩ | h6 <;>
    rcases ilocRow_cases df 7 with ⟨v7, h7⟩ | h7 <;>
    simp [identify_key_sections, h2, h3, h6, h7, e5, exBind_ok, exBind_error]

theorem sectionsOf_eq (df : List (List ℚ)) (s : Category → List ℚ)
    (h : identify_key_sections df = Except.ok s) : sectionsOf df = s := by
  simp [sectionsOf, h, Except.toOption]

theorem sectionsOf_len (df : List (List ℚ)) (h9 : 9 ≤ df.length)
    (h14 : ∀ row ∈ df, 14 ≤ row.length) (c : Category) :
    (sectionsOf df c).length = 13 := by
  rw [sectionsOf_eq df _ (identify_ok df h9)]
  have hlt : rowIdx c < df.length := by cases c <;> simp [rowIdx] <;> omega
  have hmem : df.getD (rowIdx c) [] ∈ df := by
    rw [List.getD_eq_getElem?_getD, List.getElem?_eq_getElem hlt]
    exact List.getElem_mem hlt
  have := h14 _ hmem
  simp only [List.length_take, List.length_drop]
  omega

/-! ### Lemmas about `calculate_growth_rates` -/

theorem calculate_rows (s g : Category → List ℚ)
    (h : calculate_growth_rates s = Except.ok g) :
    ∀ c, growthRatesOfRow (s c) = Except.ok (g c) := by
  unfold calculate_growth_rates at h
  cases e1 : growthRatesOfRow (s .productSales) with
  | error e => rw [e1] at h; simp [exBind_error] at h
  | ok g1 =>
  rw [e1] at h
  cases e2 : growthRatesOfRow (s .serviceSales) with
  | error e => rw [e2] at h; simp [exBind_error, exBind_ok] at h
  | ok g2 =>
  rw [e2] at h
  cases e3 : growthRatesOfRow (s .costOfGoodsSold) with
  | error e => rw [e3] at h; simp [exBind_error, exBind_ok] at h
  | ok g3 =>
  rw [e3] at h
  cases e4 : growthRatesOfRow (s .marketing) with
  | error e => rw [e4] at h; simp [exBind_error, exBind_ok] at h
  | ok g4 =>
  rw [e4] at h
  cases e5 : growthRatesOfRow (s .staffSalaries) with
  | error e => rw [e5] at h; simp [exBind_error, exBind_ok] at h
  | ok g5 =>
  rw [e5] at h
  simp only [exBind_ok] at h
  injection h with h
  intro c
  rw [← h]
  cases c
  · exact e1
  · exact e2
  · exact e3
  · exact e4
  · exact e5

theorem calculate_isOk (s : Category → List ℚ)
    (h : ∀ c, ∃ g, growthRatesOfRow (s c) = Except.ok g) :
    ∃ g, calculate_growth_rates s = Except.ok g := by
  obtain ⟨g1, e1⟩ := h .productSales
  obtain ⟨g2, e2⟩ := h .serviceSales
  obtain ⟨g3, e3⟩ := h .costOfGoodsSold
  obtain ⟨g4, e4⟩ := h .marketing
  obtain ⟨g5, e5⟩ := h .staffSalaries
  refine ⟨fun c => match c with
    | .productSales => g1
    | .serviceSales => g2
    | .costOfGoodsSold => g3
    | .marketing => g4
    | .staffSalaries => g5, ?_⟩
  simp [calculate_growth_rates, e1, e2, e3, e4, e5, exBind_ok]

theorem calculate_error (s : Category → List ℚ) (c : Category)
    (hc : growthRatesOfRow (s c) = Except.error zeroDivMsg) :
    calculate_growth_rates s = Except.error zeroDivMsg := by
  rcases growthRatesOfRow_cases (s .productSales) with ⟨g1, h1⟩ | h1 <;>
    rcases growthRatesOfRow_cases (s .serviceSales) with ⟨g2, h2⟩ | h2 <;>
    rcases growthRatesOfRow_cases (s .costOfGoodsSold) with ⟨g3, h3⟩ | h3 <;>
    rcases growthRatesOfRow_cases (s .marketing) with ⟨g4, h4⟩ | h4 <;>
    rcases growthRatesOfRow_cases (s .staffSalaries) with ⟨g5, h5⟩ | h5 <;>
    simp [calculate_growth_rates, h1, h2, h3, h4, h5, exBind_ok, exBind_error] <;>
    cases c <;> simp_all

theorem growthOf_eq (df : List (List ℚ)) (g : Category → List ℚ)
    (h : calculate_growth_rates (sectionsOf df) = Except.ok g) : growthOf df = g := by
  simp [growthOf, h, Except.toOption]

/-! ### Inversion of `main_flow` -/

theorem main_flow_inv (df : List (List ℚ)) (a : Assumptions)
    (h : main_flow df = Except.ok a) :
    ∃ s g, identify_key_sections df = Except.ok s ∧
      calculate_growth_rates s = Except.ok g ∧
      a.static_keys = categoryList.filter (fun c => decide ((0 : ℚ) ∈ g c)) ∧
      (∀ c, a.avg_growth_rates c = if c ∈ a.static_keys then none
        else some (pyround2 ((g c).sum / ((g c).length : ℚ)))) ∧
      (∀ c, a.initial_values c = (s c).headD 0) := by
  unfold main_flow at h
  cases e1 : identify_key_sections df with
  | error e => rw [e1] at h; simp [exBind_error] at h
  | ok s =>
  rw [e1] at h
  simp only [exBind_ok] at h
  cases e2 : calculate_growth_rates s with
  | error e => rw [e2] at h; simp [exBind_error, exBind_ok] at h
  | ok g =>
  rw [e2] at h
  simp only [exBind_ok] at h
  split at h
  · simp at h
  · split at h
    · simp at h
    · injection h with h
      exact ⟨s, g, rfl, e2, by rw [← h], fun c => by rw [← h], fun c => by rw [← h]⟩

/-- A successful `main_flow` run returns exactly the `assumptionsOf` snapshot. -/
theorem main_flow_eq_ok (df : List (List ℚ))
    (h : (main_flow df).toOption.isSome = true) :
    main_flow df = Except.ok (assumptionsOf df) := by
  cases hm : main_flow df with
  | error e => rw [hm] at h; simp [Except.toOption] at h
  | ok a => simp [assumptionsOf, hm, Except.toOption]

/-- A successful `build_new_df` run returns exactly the defaulted table. -/
theorem build_eq_ok (a : Assumptions) (periods : ℤ) (pr sr : ℚ)
    (h : ((build_new_df a periods pr sr).2).toOption.isSome = true) :
    (build_new_df a periods pr sr).2 = Except.ok
      (((build_new_df a periods pr sr).2).toOption.getD
        { col_labels := [], rows := [] }) := by
  cases hm : (build_new_df a periods pr sr).2 with
  | error e => rw [hm] at h; simp [Except.toOption] at h
  | ok t => simp [hm, Except.toOption]

/-! ### The failure of `buildTable` on a negative period count -/

theorem projRow_neg (a : Assumptions) (c : Category) (periods : ℤ) (hp : periods < 0) :
    projRow a c periods = Except.ok [] := by
  have h0 : (periods + 1).toNat = 0 := by omega
  unfold projRow
  rw [h0]
  by_cases hc : c ∈ a.static_keys <;> simp [hc, compoundRow]

theorem buildTable_neg (a : Assumptions) (periods : ℤ) (hp : periods < 0) :
    buildTable a periods = Except.error valueErrMsg := by
  have h1 := projRow_neg a .productSales periods hp
  have h2 := projRow_neg a .serviceSales periods hp
  have h3 := projRow_neg a .costOfGoodsSold periods hp
  have h4 := projRow_neg a .marketing periods hp
  have h5 := projRow_neg a .staffSalaries periods hp
  have hq : (periods + 1).toNat ≠ 1 + periods.toNat := by omega
  simp [buildTable, h1, h2, h3, h4, h5, exBind_ok, hq]

attribute [local semireducible] Rat.add Rat.mul Rat.inv Rat.sub Rat.ofScientific

/-! ### The claims -/

/-- Claim C1: for every assumptions snapshot (carrying, as the data model
requires, a rate for every non-static category), every `periods ≥ 0` and
every pair of override percentages, `build_new_df` produces for each static
category a series that is its initial value repeated `periods + 1` times,
and for each non-static category the value at period `p` (`p = 0` being the
Initial column) equals `round(initial * (1 + avg_rate) ** p, 2)` with the
post-override rate — compounded from the initial value, not chained from
successive rounded values. -/
theorem C1_compound_projection (a : Assumptions) (periods : ℤ) (hp : 0 ≤ periods)
    (pr sr : ℚ) (hwf : ∀ c, c ∉ a.static_keys → (a.avg_growth_rates c).isSome) :
    ∃ t, (build_new_df a periods pr sr).2 = Except.ok t ∧
      (∀ c ∈ a.static_keys,
        getRow t (catName c) = List.replicate (periods + 1).toNat (a.initial_values c)) ∧
      (∀ c, c ∉ a.static_keys →
        getRow t (catName c) = (List.range (periods + 1).toNat).map fun p =>
          pyround2 (a.initial_values c * (1 + effRate a pr sr c) ^ p)) :=
  build_rows_spec a periods hp pr sr hwf

/-- Witness for C1 at the concrete snapshot `sampleA` with `periods = 3` and
override rates 4 and 5. -/
theorem C1_compound_projection_witness :
    ∃ t, (build_new_df sampleA 3 4 5).2 = Except.ok t ∧
      (∀ c ∈ sampleA.static_keys,
        getRow t (catName c) =
          List.replicate ((3 : ℤ) + 1).toNat (sampleA.initial_values c)) ∧
      (∀ c, c ∉ sampleA.static_keys →
        getRow t (catName c) = (List.range ((3 : ℤ) + 1).toNat).map fun p =>
          pyround2 (sampleA.initial_values c * (1 + effRate sampleA 4 5 c) ^ p)) :=
  C1_compound_projection sampleA 3 (by decide) 4 5 (by decide)

/-- Claim C2: in every successful extraction, a category is static iff `0.0`
occurs in its rounded growth-rate series; the static keys are drawn from the
five category names; the average-rate mapping holds exactly the non-static
categories; and each average is `round(mean of the rounded rates, 2)`. -/
theorem C2_static_classification (df : List (List ℚ)) (a : Assumptions)
    (h : main_flow df = Except.ok a) :
    (∀ c ∈ a.static_keys, c ∈ categoryList) ∧
    (∀ c, c ∈ a.static_keys ↔ (0 : ℚ) ∈ growthOf df c) ∧
    (∀ c, (a.avg_growth_rates c).isSome ↔ c ∉ a.static_keys) ∧
    (∀ c, c ∉ a.static_keys → a.avg_growth_rates c =
      some (pyround2 ((growthOf df c).sum / ((growthOf df c).length : ℚ)))) := by
  obtain ⟨s, g, hs, hg, hstat, havg, hinit⟩ := main_flow_inv df a h
  have hsec : sectionsOf df = s := sectionsOf_eq df s hs
  have hgrow : growthOf df = g := growthOf_eq df g (by rw [hsec]; exact hg)
  rw [hgrow]
  refine ⟨fun c _ => mem_categoryList c, ?_, ?_, ?_⟩
  · intro c
    rw [hstat]
    simp [List.mem_filter, mem_categoryList]
  · intro c
    rw [havg c]
    by_cases hc : c ∈ a.static_keys <;> simp [hc]
  · intro c hc
    rw [havg c, if_neg hc]

/-- Witness for C2 at the concrete table `sample_df`. -/
theorem C2_static_classification_witness :
    (∀ c ∈ (assumptionsOf sample_df).static_keys, c ∈ categoryList) ∧
    (∀ c, c ∈ (assumptionsOf sample_df).static_keys ↔
      (0 : ℚ) ∈ growthOf sample_df c) ∧
    (∀ c, ((assumptionsOf sample_df).avg_growth_rates c).isSome ↔
      c ∉ (assumptionsOf sample_df).static_keys) ∧
    (∀ c, c ∉ (assumptionsOf sample_df).static_keys →
      (assumptionsOf sample_df).avg_growth_rates c =
        some (pyround2 ((growthOf sample_df c).sum /
          ((growthOf sample_df c).length : ℚ)))) :=
  C2_static_classification sample_df (assumptionsOf sample_df)
    (main_flow_eq_ok sample_df (by decide))

/-- Claim C3: in every projection table returned by `build_new_df`, each
column satisfies Total Sales = Product Sales + Service Sales, Total Operating
Expenses = Cost of Goods Sold + Marketing + Staff Salaries, and Net Income =
Total Sales - Total Operating Expenses, exactly, in the exact rational
arithmetic of the already 2-decimal-rounded base rows. -/
theorem C3_derived_rows (a : Assumptions) (periods : ℤ) (pr sr : ℚ) (t : ProjTable)
    (h : (build_new_df a periods pr sr).2 = Except.ok t) :
    ∀ i : ℕ,
      (getRow t "Total Sales").getD i 0 =
        (getRow t "Product Sales").getD i 0 + (getRow t "Service Sales").getD i 0 ∧
      (getRow t "Total Operating Expenses").getD i 0 =
        (getRow t "Cost of Goods Sold").getD i 0 + (getRow t "Marketing").getD i 0 +
          (getRow t "Staff Salaries").getD i 0 ∧
      (getRow t "Net Income").getD i 0 =
        (getRow t "Total Sales").getD i 0 -
          (getRow t "Total Operating Expenses").getD i 0 := by
  obtain ⟨v1, v2, v3, v4, v5, h1, h2, h3, h4, h5, hrows⟩ :=
    buildTable_inv (overrideRates a pr sr) periods t h
  have l1 := projRow_length _ _ _ _ h1
  have l2 := projRow_length _ _ _ _ h2
  have l3 := projRow_length _ _ _ _ h3
  have l4 := projRow_length _ _ _ _ h4
  have l5 := projRow_length _ _ _ _ h5
  have e1 : getRow t "Product Sales" = v1 := by simp [getRow, hrows, lookupRow]
  have e2 : getRow t "Service Sales" = v2 := by simp [getRow, hrows, lookupRow]
  have e3 : getRow t "Total Sales" = List.zipWith (· + ·) v1 v2 := by
    simp [getRow, hrows, lookupRow]
  have e4 : getRow t "Cost of Goods Sold" = v3 := by simp [getRow, hrows, lookupRow]
  have e5 : getRow t "Marketing" = v4 := by simp [getRow, hrows, lookupRow]
  have e6 : getRow t "Staff Salaries" = v5 := by simp [getRow, hrows, lookupRow]
  have e7 : getRow t "Total Operating Expenses" =
      List.zipWith (· + ·) (List.zipWith (· + ·) v3 v4) v5 := by
    simp [getRow, hrows, lookupRow]
  have e8 : getRow t "Net Income" =
      List.zipWith (· - ·) (List.zipWith (· + ·) v1 v2)
        (List.zipWith (· + ·) (List.zipWith (· + ·) v3 v4) v5) := by
    simp [getRow, hrows, lookupRow]
  intro i
  rw [e1, e2, e3, e4, e5, e6, e7, e8]
  refine ⟨?_, ?_, ?_⟩
  · exact zipWith_getD (· + ·) (by norm_num) v1 v2 (by omega) i
  · rw [zipWith_getD (· + ·) (by norm_num) (List.zipWith (· + ·) v3 v4) v5
      (by simp [List.length_zipWith]; omega) i]
    rw [zipWith_getD (· + ·) (by norm_num) v3 v4 (by omega) i]
  · rw [zipWith_getD (· - ·) (by norm_num) (List.zipWith (· + ·) v1 v2)
      (List.zipWith (· + ·) (List.zipWith (· + ·) v3 v4) v5)
      (by simp [List.length_zipWith]; omega) i]

/-- Witness for C3 at the concrete snapshot `sampleA` with `periods = 3` and
rates 4 and 5; the hypothesis is discharged by computing the table. -/
theorem C3_derived_rows_witness :
    (getRow sampleTableA "Total Sales").getD 2 0 =
      (getRow sampleTableA "Product Sales").getD 2 0 +
        (getRow sampleTableA "Service Sales").getD 2 0 ∧
    (getRow sampleTableA "Total Operating Expenses").getD 2 0 =
      (getRow sampleTableA "Cost of Goods Sold").getD 2 0 +
        (getRow sampleTableA "Marketing").getD 2 0 +
        (getRow sampleTableA "Staff Salaries").getD 2 0 ∧
    (getRow sampleTableA "Net Income").getD 2 0 =
      (getRow sampleTableA "Total Sales").getD 2 0 -
        (getRow sampleTableA "Total Operating Expenses").getD 2 0 :=
  C3_derived_rows sampleA 3 4 5 sampleTableA (build_eq_ok sampleA 3 4 5 (by decide)) 2

/-- Counterexample to Claim C4: on the concrete table `df_psStatic`, whose
Product Sales history is constant, extraction classifies Product Sales as
static, yet after one invocation of `build_new_df` the (mutated) average-rate
mapping does contain the static Product Sales — the overwrite of step 1 is
unconditional, so the invariant is not preserved. -/
theorem C4_counterexample :
    (main_flow df_psStatic).toOption.isSome = true ∧
    Category.productSales ∈ (assumptionsOf df_psStatic).static_keys ∧
    (((build_new_df (assumptionsOf df_psStatic) 3 4 5).1).avg_growth_rates
        Category.productSales).isSome = true := by decide

/-- Claim C4 as amended: the mapping produced by extraction never contains a
static category, and `build_new_df` preserves the invariant exactly when
neither Product Sales nor Service Sales is static; its unconditional rate
overwrite inserts the two sales categories into the mapping regardless. -/
theorem C4_amended_invariant (df : List (List ℚ)) (a : Assumptions)
    (h : main_flow df = Except.ok a) (b : Assumptions) (periods : ℤ) (pr sr : ℚ) :
    (∀ c ∈ a.static_keys, a.avg_growth_rates c = none) ∧
    ((∀ c ∈ b.static_keys, b.avg_growth_rates c = none) →
      Category.productSales ∉ b.static_keys →
      Category.serviceSales ∉ b.static_keys →
      ∀ c ∈ ((build_new_df b periods pr sr).1).static_keys,
        ((build_new_df b periods pr sr).1).avg_growth_rates c = none) := by
  obtain ⟨s, g, hs, hg, hstat, havg, hinit⟩ := main_flow_inv df a h
  constructor
  · intro c hc
    rw [havg c, if_pos hc]
  · intro hb hps hss c hc
    have hcps : c ≠ Category.productSales := fun he => hps (he ▸ hc)
    have hcss : c ≠ Category.serviceSales := fun he => hss (he ▸ hc)
    show (overrideRates b pr sr).avg_growth_rates c = none
    simp only [overrideRates, if_neg hcps, if_neg hcss]
    exact hb c hc

/-- Witness for the amended C4: the extraction invariant at `sample_df` and
the preservation through `build_new_df` at `sampleA`, whose static category
is Cost of Goods Sold (not a sales category). -/
theorem C4_amended_invariant_witness :
    (∀ c ∈ (assumptionsOf sample_df).static_keys,
      (assumptionsOf sample_df).avg_growth_rates c = none) ∧
    (∀ c ∈ ((build_new_df sampleA 3 4 5).1).static_keys,
      ((build_new_df sampleA 3 4 5).1).avg_growth_rates c = none) :=
  ⟨(C4_amended_invariant sample_df (assumptionsOf sample_df)
      (main_flow_eq_ok sample_df (by decide)) sampleA 3 4 5).1,
   (C4_amended_invariant sample_df (assumptionsOf sample_df)
      (main_flow_eq_ok sample_df (by decide)) sampleA 3 4 5).2
     (by decide) (by decide) (by decide)⟩

/-- Claim C5: for every assumptions snapshot and override rates, the
projection fails — with the `ValueError` pandas raises at the column-label
assignment, Python's invalid-argument error — whenever `periods < 0`, and for
`periods ≥ 0` it does not fail (given rates for the non-static categories, as
the data model requires). -/
theorem C5_negative_periods (a : Assumptions) (periods : ℤ) (pr sr : ℚ) :
    (periods < 0 → (build_new_df a periods pr sr).2 = Except.error valueErrMsg) ∧
    (0 ≤ periods → (∀ c, c ∉ a.static_keys → (a.avg_growth_rates c).isSome) →
      ∃ t, (build_new_df a periods pr sr).2 = Except.ok t) := by
  constructor
  · intro hp
    show buildTable (overrideRates a pr sr) periods = _
    exact buildTable_neg _ periods hp
  · intro hp hwf
    obtain ⟨t, ht, -, -⟩ := build_rows_spec a periods hp pr sr hwf
    exact ⟨t, ht⟩

/-- Witness for C5 at the concrete snapshot `sampleA`: `periods = -1` fails
and `periods = 3` succeeds. -/
theorem C5_negative_periods_witness :
    (build_new_df sampleA (-1) 4 5).2 = Except.error valueErrMsg ∧
    ∃ t, (build_new_df sampleA 3 4 5).2 = Except.ok t :=
  ⟨(C5_negative_periods sampleA (-1) 4 5).1 (by decide),
   (C5_negative_periods sampleA 3 4 5).2 (by decide) (by decide)⟩

/-- Counterexample to Claim C6: the concrete table `df_9x2` has 9 rows but
only 2 columns — fewer than 14 — yet the slicing step of extraction succeeds,
because pandas permits out-of-bounds slice indexers; the claimed
IndexOutOfRange failure for narrow tables does not occur. -/
theorem C6_counterexample :
    df_9x2.length = 9 ∧ (∀ row ∈ df_9x2, row.length = 2) ∧
    (identify_key_sections df_9x2).toOption.isSome = true := by decide

/-- Claim C6 as amended: extraction fails with an IndexOutOfRange-style error
exactly when the table has fewer than 9 rows; with at least 9 rows the
slicing always succeeds (a narrow table is silently truncated), and when
every row also has at least 14 columns each category receives 13 values. -/
theorem C6_amended_shape_errors (df : List (List ℚ)) :
    (df.length < 9 → identify_key_sections df = Except.error indexErrMsg) ∧
    (9 ≤ df.length → (identify_key_sections df).toOption.isSome = true) ∧
    (9 ≤ df.length → (∀ row ∈ df, 14 ≤ row.length) →
      ∀ c, (sectionsOf df c).length = 13) := by
  refine ⟨fun h => identify_err df h, fun h => ?_,
    fun h9 h14 c => sectionsOf_len df h9 h14 c⟩
  rw [identify_ok df h]
  rfl

/-- Witness for the amended C6: `sample_df` (9 × 14) slices into 13-value
rows and a 3-row table fails with the IndexError. -/
theorem C6_amended_shape_errors_witness :
    (identify_key_sections sample_df).toOption.isSome = true ∧
    (∀ c, (sectionsOf sample_df c).length = 13) ∧
    identify_key_sections (List.replicate 3 (List.replicate 14 (1 : ℚ))) =
      Except.error indexErrMsg :=
  ⟨(C6_amended_shape_errors sample_df).2.1 (by decide),
   (C6_amended_shape_errors sample_df).2.2 (by decide) (by decide),
   (C6_amended_shape_errors (List.replicate 3 (List.replicate 14 (1 : ℚ)))).1
     (by decide)⟩

/-- Claim C7: for a table of the expected shape, the growth-rate computation
fails with a DivisionByZero-style error when one of the first 12 values of
some category's sliced row — the divisors — is zero, and succeeds when none
is zero.  (Python raises `ZeroDivisionError` when dividing plain numbers by
zero.) -/
theorem C7_division_by_zero (df : List (List ℚ)) (h9 : 9 ≤ df.length)
    (h14 : ∀ row ∈ df, 14 ≤ row.length) :
    ((∃ c, ∃ i ∈ List.range 12, (sectionsOf df c).getD i 0 = 0) →
      calculate_growth_rates (sectionsOf df) = Except.error zeroDivMsg) ∧
    ((∀ c, ∀ i ∈ List.range 12, (sectionsOf df c).getD i 0 ≠ 0) →
      (calculate_growth_rates (sectionsOf df)).toOption.isSome = true) := by
  have hlen : ∀ c, (sectionsOf df c).length = 13 := sectionsOf_len df h9 h14
  constructor
  · rintro ⟨c, i, hi, h0⟩
    have hib : i + 1 < (sectionsOf df c).length := by
      rw [hlen c]
      rw [List.mem_range] at hi
      omega
    exact calculate_error _ c (growthRatesOfRow_zeroDiv _ i hib h0)
  · intro hnz
    obtain ⟨g, hgok⟩ := calculate_isOk (sectionsOf df) (fun c =>
      growthRatesOfRow_isOk _ (fun i hi =>
        hnz c i (List.mem_range.mpr (by rw [hlen c] at hi; omega))))
    rw [hgok]
    rfl

/-- Witness for C7: `df_zero` holds a zero divisor in its Product Sales row
and fails; `sample_df` holds none and succeeds. -/
theorem C7_division_by_zero_witness :
    calculate_growth_rates (sectionsOf df_zero) = Except.error zeroDivMsg ∧
    (calculate_growth_rates (sectionsOf sample_df)).toOption.isSome = true :=
  ⟨(C7_division_by_zero df_zero (by decide) (by decide)).1 (by decide),
   (C7_division_by_zero sample_df (by decide) (by decide)).2 (by decide)⟩

/-- Claim C8: for every category of a well-shaped table with no zero-valued
divisor, the growth series has exactly `len(HistoricalRow) - 1 = 12` entries
and entry `i` (1-based) is `round((v[i] - v[i-1]) / v[i-1], 2)` for
`i in 1..12` over the 13-value historical row `v`. -/
theorem C8_growth_series (df : List (List ℚ)) (h9 : 9 ≤ df.length)
    (h14 : ∀ row ∈ df, 14 ≤ row.length)
    (hnz : ∀ c, ∀ i ∈ List.range 12, (sectionsOf df c).getD i 0 ≠ 0) :
    ∀ c, (sectionsOf df c).length = 13 ∧
      (growthOf df c).length = (sectionsOf df c).length - 1 ∧
      (∀ i : ℕ, 1 ≤ i → i ≤ 12 →
        (growthOf df c).getD (i - 1) 0 =
          pyround2 (((sectionsOf df c).getD i 0 - (sectionsOf df c).getD (i - 1) 0) /
            (sectionsOf df c).getD (i - 1) 0)) := by
  have hlen := sectionsOf_len df h9 h14
  obtain ⟨g, hgok⟩ := calculate_isOk (sectionsOf df) (fun c =>
    growthRatesOfRow_isOk _ (fun i hi =>
      hnz c i (List.mem_range.mpr (by rw [hlen c] at hi; omega))))
  have hge : growthOf df = g := growthOf_eq df g hgok
  intro c
  have hrow : growthRatesOfRow (sectionsOf df c) = Except.ok (g c) :=
    calculate_rows _ _ hgok c
  refine ⟨hlen c, ?_, ?_⟩
  · rw [hge]
    exact growthRatesOfRow_length _ _ hrow
  · intro i hi1 hi12
    rw [hge]
    have hk := growthRatesOfRow_getD _ _ hrow (i - 1) (by rw [hlen c]; omega)
    have hsub : i - 1 + 1 = i := by omega
    rw [hsub] at hk
    exact hk

/-- Witness for C8 at the concrete table `sample_df`. -/
theorem C8_growth_series_witness :
    (sectionsOf sample_df Category.productSales).length = 13 ∧
      (growthOf sample_df Category.productSales).length =
        (sectionsOf sample_df Category.productSales).length - 1 ∧
      (∀ i : ℕ, 1 ≤ i → i ≤ 12 →
        (growthOf sample_df Category.productSales).getD (i - 1) 0 =
          pyround2 (((sectionsOf sample_df Category.productSales).getD i 0 -
            (sectionsOf sample_df Category.productSales).getD (i - 1) 0) /
            (sectionsOf sample_df Category.productSales).getD (i - 1) 0)) :=
  C8_growth_series sample_df (by decide) (by decide) (by decide) Category.productSales

/-- Claim C9: calling `build_new_df` twice with identical arguments, the
second call starting from the assumptions object mutated by the first,
yields the same projection table — the overwrite rewrites the same two
entries with the same values, so the in-place mutation is invisible to a
repeat invocation with unchanged arguments. -/
theorem C9_repeat_invocation (a : Assumptions) (periods : ℤ) (pr sr : ℚ) :
    (build_new_df ((build_new_df a periods pr sr).1) periods pr sr).2 =
      (build_new_df a periods pr sr).2 := by
  show buildTable (overrideRates (overrideRates a pr sr) pr sr) periods =
    buildTable (overrideRates a pr sr) periods
  rw [overrideRates_idem]

/-- Claim C10: in every projection table, the Initial column of a non-static
category is `round(initial, 2)` while the Initial column of a static category
is the unrounded initial value, so a static and a non-static category sharing
an initial value with more than two decimal places report different Initial
values. -/
theorem C10_initial_column (a : Assumptions) (periods : ℤ) (hp : 0 ≤ periods)
    (pr sr : ℚ) (hwf : ∀ c, c ∉ a.static_keys → (a.avg_growth_rates c).isSome) :
    ∃ t, (build_new_df a periods pr sr).2 = Except.ok t ∧
      (∀ c ∈ a.static_keys, (getRow t (catName c)).getD 0 0 = a.initial_values c) ∧
      (∀ c, c ∉ a.static_keys →
        (getRow t (catName c)).getD 0 0 = pyround2 (a.initial_values c)) ∧
      (∀ c c', c ∈ a.static_keys → c' ∉ a.static_keys →
        a.initial_values c = a.initial_values c' →
        pyround2 (a.initial_values c) ≠ a.initial_values c →
        (getRow t (catName c)).getD 0 0 ≠ (getRow t (catName c')).getD 0 0) := by
  obtain ⟨t, ht, hstat, hgrow⟩ := build_rows_spec a periods hp pr sr hwf
  have hn : (periods + 1).toNat = periods.toNat + 1 := by omega
  have hs : ∀ c ∈ a.static_keys,
      (getRow t (catName c)).getD 0 0 = a.initial_values c := by
    intro c hc
    rw [hstat c hc, hn]
    simp [List.replicate_succ]
  have hg : ∀ c, c ∉ a.static_keys →
      (getRow t (catName c)).getD 0 0 = pyround2 (a.initial_values c) := by
    intro c hc
    rw [hgrow c hc, hn, List.range_succ_eq_map]
    simp
  refine ⟨t, ht, hs, hg, ?_⟩
  intro c c' hc hc' heq hne
  rw [hs c hc, hg c' hc', ← heq]
  exact fun hcon => hne hcon.symm

/-- Witness for C10 at the concrete snapshot `sampleB`, whose static Cost of
Goods Sold and non-static Marketing share the initial value 100.125; the
rounding divergence `pyround2 (801/8) ≠ 801/8` is discharged by computation. -/
theorem C10_initial_column_witness :
    pyround2 (801 / 8) ≠ (801 / 8 : ℚ) ∧
    (∃ t, (build_new_df sampleB 3 4 5).2 = Except.ok t ∧
      (∀ c ∈ sampleB.static_keys,
        (getRow t (catName c)).getD 0 0 = sampleB.initial_values c) ∧
      (∀ c, c ∉ sampleB.static_keys →
        (getRow t (catName c)).getD 0 0 = pyround2 (sampleB.initial_values c)) ∧
      (∀ c c', c ∈ sampleB.static_keys → c' ∉ sampleB.static_keys →
        sampleB.initial_values c = sampleB.initial_values c' →
        pyround2 (sampleB.initial_values c) ≠ sampleB.initial_values c →
        (getRow t (catName c)).getD 0 0 ≠ (getRow t (catName c')).getD 0 0)) :=
  ⟨by decide, C10_initial_column sampleB 3 (by decide) 4 5 (by decide)⟩

end FinProj
